import Mathlib

/-!
Shallow embedding of the Stream-Deck SDK core: the `StreamDeckHandlerBase`
class (readiness lifecycle, socket handling, outgoing-message queue, inbound
event handler) and the `EventManager` (subscription registry, decorator
wrapper, `callEvents`).

Modelling conventions:
* Machine-level JS values that the core stores but never inspects
  (settings payloads) are modelled by the small value type `JVal`; JSON
  object/array structure is elided because no routine of the core looks
  inside a settings value.
* `JSON.stringify` is abstracted to the structured frame itself (`OutFrame`):
  it is injective on the frames the core builds, and only the identity and
  order of serialized frames is ever observable.
* The WebSocket is a handle `WSock` holding its ready state and the list of
  frames handed to it.  Per the WHATWG WebSocket standard, `send` on a
  CONNECTING socket throws `InvalidStateError`, on an OPEN socket transmits,
  and after close the data is silently discarded.
* `JSON.parse` of inbound wire text is modelled by `Msg`: `Msg.malformed` is
  a text on which `JSON.parse` throws, `Msg.frame f` a successfully parsed
  frame.
* An uncaught exception in a socket callback (`onmessage`) does not prevent
  later callbacks from running; `sdStep` therefore leaves the state
  unchanged and emits nothing when the handler throws.
-/

/-- A JS value as far as the core observes it: settings payloads are stored
and forwarded but never inspected, so object/array structure is elided. -/
inductive JVal where
  | undef : JVal
  | str : String → JVal
  | num : Int → JVal
  | boolean : Bool → JVal
deriving DecidableEq

/-- The four one-shot lifecycle notifications emitted by `_handleReadyState`. -/
inductive Notif where
  | connectionOpened : Notif
  | documentLoaded : Notif
  | globalSettingsAvailable : Notif
  | setupReady : Notif
deriving DecidableEq

/-- The readiness fields of `StreamDeckHandlerBase`: the three input flags
`_documentReady`, `_connectionReady`, `_globalSettingsReady` and the four
one-shot latches, exactly as declared in the class (lines 71-77). -/
structure ReadyState where
  documentReady : Bool
  connectionReady : Bool
  globalSettingsReady : Bool
  documentReadyInvoked : Bool
  connectionReadyInvoked : Bool
  globalSettingsInvoked : Bool
  onReadyInvoked : Bool
deriving DecidableEq

/-- All readiness fields start `false`. -/
def initReady : ReadyState :=
  ⟨false, false, false, false, false, false, false⟩

/-- `_handleReadyState` (source lines 320-340): four guarded blocks run in
order; each checks a flag (resp. the three latches) and an unset latch,
sets the latch and emits the corresponding notification via
`EventManager.callEvents`.  The returned list is the emission order. -/
def handleReadyState (s0 : ReadyState) : ReadyState × List Notif :=
  let p1 :=
    if s0.connectionReady && !s0.connectionReadyInvoked then
      ({s0 with connectionReadyInvoked := true}, [Notif.connectionOpened])
    else (s0, [])
  let s1 := p1.1
  let p2 :=
    if s1.documentReady && !s1.documentReadyInvoked then
      ({s1 with documentReadyInvoked := true}, [Notif.documentLoaded])
    else (s1, [])
  let s2 := p2.1
  let p3 :=
    if s2.globalSettingsReady && !s2.globalSettingsInvoked then
      ({s2 with globalSettingsInvoked := true}, [Notif.globalSettingsAvailable])
    else (s2, [])
  let s3 := p3.1
  let p4 :=
    if s3.globalSettingsInvoked && s3.documentReadyInvoked &&
        s3.connectionReadyInvoked && !s3.onReadyInvoked then
      ({s3 with onReadyInvoked := true}, [Notif.setupReady])
    else (s3, [])
  (p4.1, p1.2 ++ p2.2 ++ p3.2 ++ p4.2)

/-- The ways the source mutates the readiness flags, each immediately
followed by `_handleReadyState`: the `_docReady` callback (line 112-115),
`_open` (lines 310-311), `_eventHandler` on the reserved settings frame
(lines 357-358); `rerun` is an extra invocation of the evaluation routine. -/
inductive ReadyOp where
  | setDocumentReady : ReadyOp
  | setConnectionReady : ReadyOp
  | setGlobalSettingsReady : ReadyOp
  | rerun : ReadyOp
deriving DecidableEq, Fintype

/-- One flag mutation followed by `_handleReadyState`, as in the source. -/
def rstep (s : ReadyState) : ReadyOp → ReadyState × List Notif
  | ReadyOp.setDocumentReady => handleReadyState {s with documentReady := true}
  | ReadyOp.setConnectionReady => handleReadyState {s with connectionReady := true}
  | ReadyOp.setGlobalSettingsReady => handleReadyState {s with globalSettingsReady := true}
  | ReadyOp.rerun => handleReadyState s

/-- Run a sequence of readiness triggers, concatenating the emitted
notifications in order. -/
def runReady (s : ReadyState) : List ReadyOp → ReadyState × List Notif
  | [] => (s, [])
  | op :: ops =>
    let p := rstep s op
    let q := runReady p.1 ops
    (q.1, p.2 ++ q.2)

/-- The shape every reachable readiness state has: each latch equals its
flag and the composite latch is the conjunction of the three flags. -/
def canon (d c g : Bool) : ReadyState :=
  ⟨d, c, g, d, c, g, c && d && g⟩

/-- A readiness state is `good` when it is of the canonical shape. -/
def good (s : ReadyState) : Prop :=
  s = canon s.documentReady s.connectionReady s.globalSettingsReady

instance (s : ReadyState) : Decidable (good s) := by
  unfold good; infer_instance

example : good initReady := by decide

-- Step facts, established once over the 8 canonical states and 4 ops.

theorem rstep_canon : ∀ (d c g : Bool) (op : ReadyOp),
    (rstep (canon d c g) op).1 =
      canon (d || (op == ReadyOp.setDocumentReady))
            (c || (op == ReadyOp.setConnectionReady))
            (g || (op == ReadyOp.setGlobalSettingsReady)) := by
  decide

theorem rstep_count : ∀ (d c g : Bool) (op : ReadyOp),
    ((rstep (canon d c g) op).2.count Notif.connectionOpened
        + (canon d c g).connectionReadyInvoked.toNat
        = ((rstep (canon d c g) op).1.connectionReadyInvoked).toNat) ∧
    ((rstep (canon d c g) op).2.count Notif.documentLoaded
        + (canon d c g).documentReadyInvoked.toNat
        = ((rstep (canon d c g) op).1.documentReadyInvoked).toNat) ∧
    ((rstep (canon d c g) op).2.count Notif.globalSettingsAvailable
        + (canon d c g).globalSettingsInvoked.toNat
        = ((rstep (canon d c g) op).1.globalSettingsInvoked).toNat) ∧
    ((rstep (canon d c g) op).2.count Notif.setupReady
        + (canon d c g).onReadyInvoked.toNat
        = ((rstep (canon d c g) op).1.onReadyInvoked).toNat) := by
  decide

theorem rstep_setup_last : ∀ (d c g : Bool) (op : ReadyOp),
    Notif.setupReady ∈ (rstep (canon d c g) op).2 →
      ((rstep (canon d c g) op).2.dropLast ++ [Notif.setupReady]
          = (rstep (canon d c g) op).2 ∧
        Notif.setupReady ∉ (rstep (canon d c g) op).2.dropLast ∧
        ((rstep (canon d c g) op).1.connectionReadyInvoked = true ∧
         (rstep (canon d c g) op).1.documentReadyInvoked = true ∧
         (rstep (canon d c g) op).1.globalSettingsInvoked = true)) := by
  decide

theorem rstep_idem : ∀ (d c g : Bool),
    ((rstep (canon d c g) ReadyOp.rerun).2 = []) ∧
    (d = true → (rstep (canon d c g) ReadyOp.setDocumentReady).2 = []) ∧
    (c = true → (rstep (canon d c g) ReadyOp.setConnectionReady).2 = []) ∧
    (g = true → (rstep (canon d c g) ReadyOp.setGlobalSettingsReady).2 = []) := by
  decide

theorem good_canon : ∀ (d c g : Bool), good (canon d c g) := by decide

/-- If `x` occurs only as the last element of `l`, any `take` that contains
`x` is all of `l`. -/
theorem take_eq_of_last_mem {α : Type} {l : List α} {x : α} {k : Nat}
    (hdec : l.dropLast ++ [x] = l) (hnot : x ∉ l.dropLast)
    (hmem : x ∈ l.take k) : l.take k = l ∧ l.length ≤ k := by
  have hlen : l.length = l.dropLast.length + 1 := by
    conv_lhs => rw [← hdec]
    simp
  have hk : l.dropLast.length + 1 ≤ k := by
    by_contra hlt
    push_neg at hlt
    have hk2 : k ≤ l.dropLast.length := by omega
    rw [← hdec, List.take_append_eq_append_take] at hmem
    rcases List.mem_append.mp hmem with h1 | h1
    · exact hnot (List.take_subset _ _ h1)
    · have : k - l.dropLast.length = 0 := by omega
      rw [this] at h1
      simp at h1
  refine ⟨List.take_of_length_le (by omega), by omega⟩

theorem runReady_cons (s : ReadyState) (op : ReadyOp) (ops : List ReadyOp) :
    runReady s (op :: ops) =
      ((runReady (rstep s op).1 ops).1,
        (rstep s op).2 ++ (runReady (rstep s op).1 ops).2) := rfl


/-- Inductive invariant of the readiness machine: starting from any good
state, the final state is good, each notification is emitted exactly as
often as its latch newly flipped, and `setupReady` appears in a prefix of
the trace only when each prerequisite notification was already latched at
the start or appears in that same prefix. -/
theorem runReady_inv : ∀ (ops : List ReadyOp) (s : ReadyState), good s →
    good (runReady s ops).1 ∧
    ((runReady s ops).2.count Notif.connectionOpened + s.connectionReadyInvoked.toNat
      = ((runReady s ops).1.connectionReadyInvoked).toNat) ∧
    ((runReady s ops).2.count Notif.documentLoaded + s.documentReadyInvoked.toNat
      = ((runReady s ops).1.documentReadyInvoked).toNat) ∧
    ((runReady s ops).2.count Notif.globalSettingsAvailable + s.globalSettingsInvoked.toNat
      = ((runReady s ops).1.globalSettingsInvoked).toNat) ∧
    ((runReady s ops).2.count Notif.setupReady + s.onReadyInvoked.toNat
      = ((runReady s ops).1.onReadyInvoked).toNat) ∧
    (∀ k, Notif.setupReady ∈ (runReady s ops).2.take k →
      ((s.connectionReadyInvoked = true ∨
          Notif.connectionOpened ∈ (runReady s ops).2.take k) ∧
       (s.documentReadyInvoked = true ∨
          Notif.documentLoaded ∈ (runReady s ops).2.take k) ∧
       (s.globalSettingsInvoked = true ∨
          Notif.globalSettingsAvailable ∈ (runReady s ops).2.take k))) := by
  intro ops
  induction ops with
  | nil =>
    intro s hs
    refine ⟨hs, by simp [runReady], by simp [runReady], by simp [runReady],
      by simp [runReady], ?_⟩
    intro k hk
    simp [runReady] at hk
  | cons op ops ih =>
    intro s hs
    have hc : s = canon s.documentReady s.connectionReady s.globalSettingsReady := hs
    generalize hd : s.documentReady = d at hc
    generalize hcc : s.connectionReady = c at hc
    generalize hgg : s.globalSettingsReady = g at hc
    subst hc
    have hstep := rstep_canon d c g op
    have hcnt := rstep_count d c g op
    have hgood1 : good (rstep (canon d c g) op).1 := by
      rw [hstep]; exact good_canon _ _ _
    obtain ⟨ihg, ihc1, ihc2, ihc3, ihc4, ihord⟩ := ih (rstep (canon d c g) op).1 hgood1
    rw [runReady_cons]
    dsimp only
    set out := (rstep (canon d c g) op).2 with hout
    set tr := (runReady (rstep (canon d c g) op).1 ops).2 with htr
    obtain ⟨hn1, hn2, hn3, hn4⟩ := hcnt
    refine ⟨ihg, ?_, ?_, ?_, ?_, ?_⟩
    · rw [List.count_append]; omega
    · rw [List.count_append]; omega
    · rw [List.count_append]; omega
    · rw [List.count_append]; omega
    · intro k hk
      rw [List.take_append_eq_append_take] at hk
      rcases List.mem_append.mp hk with hino | hintr
      · -- setupReady emitted by this very step
        have hmem : Notif.setupReady ∈ out := List.take_subset _ _ hino
        obtain ⟨hdec, hnot, hc1, hc2, hc3⟩ := rstep_setup_last d c g op hmem
        obtain ⟨htk, hlen⟩ := take_eq_of_last_mem hdec hnot hino
        have hmemo : ∀ (n : Notif) (latch0 latch1 : Bool),
            out.count n + latch0.toNat = latch1.toNat → latch1 = true →
            latch0 = true ∨ n ∈ (out ++ tr).take k := by
          intro n latch0 latch1 hcount h1
          cases latch0 with
          | true => exact Or.inl rfl
          | false =>
            right
            have hone : out.count n = 1 := by
              rw [h1] at hcount; simp at hcount; omega
            have hn : n ∈ out := List.count_pos_iff.mp (by omega)
            rw [List.take_append_eq_append_take, htk]
            exact List.mem_append.mpr (Or.inl hn)
        exact ⟨hmemo Notif.connectionOpened _ _ hn1 hc1,
          hmemo Notif.documentLoaded _ _ hn2 hc2,
          hmemo Notif.globalSettingsAvailable _ _ hn3 hc3⟩
      · -- setupReady emitted later; use the induction hypothesis
        have hkpos : 1 ≤ k - out.length := by
          by_contra hlt
          push_neg at hlt
          have hz : k - out.length = 0 := by omega
          rw [hz] at hintr
          simp at hintr
        have hklen : out.length ≤ k := by omega
        have houtk : out.take k = out := List.take_of_length_le hklen
        obtain ⟨ho1, ho2, ho3⟩ := ihord (k - out.length) hintr
        have hmemo : ∀ (n : Notif) (latch0 latch1 : Bool),
            out.count n + latch0.toNat = latch1.toNat →
            (latch1 = true ∨ n ∈ tr.take (k - out.length)) →
            latch0 = true ∨ n ∈ (out ++ tr).take k := by
          intro n latch0 latch1 hcount hdisj
          rcases hdisj with h1 | hmemtr
          · cases latch0 with
            | true => exact Or.inl rfl
            | false =>
              right
              have hone : out.count n = 1 := by
                rw [h1] at hcount; simp at hcount; omega
              have hn : n ∈ out := List.count_pos_iff.mp (by omega)
              rw [List.take_append_eq_append_take, houtk]
              exact List.mem_append.mpr (Or.inl hn)
          · right
            rw [List.take_append_eq_append_take]
            exact List.mem_append.mpr (Or.inr hmemtr)
        exact ⟨hmemo Notif.connectionOpened _ _ hn1 ho1,
          hmemo Notif.documentLoaded _ _ hn2 ho2,
          hmemo Notif.globalSettingsAvailable _ _ hn3 ho3⟩

theorem bool_toNat_le_one (b : Bool) : b.toNat ≤ 1 := by cases b <;> simp

/-- C1: for every order in which the three readiness flags become true
(including repeats and extra evaluations), each of the four lifecycle
notifications is emitted at most once; `setupReady` appears in a prefix of
the emission trace only together with the other three notifications (hence
only after them); re-running `_handleReadyState` emits nothing further; and
re-triggering an already-true flag emits nothing further. -/
theorem c1_lifecycle_once_and_ordered (ops : List ReadyOp) :
    ((runReady initReady ops).2.count Notif.connectionOpened ≤ 1 ∧
     (runReady initReady ops).2.count Notif.documentLoaded ≤ 1 ∧
     (runReady initReady ops).2.count Notif.globalSettingsAvailable ≤ 1 ∧
     (runReady initReady ops).2.count Notif.setupReady ≤ 1) ∧
    (∀ k, Notif.setupReady ∈ (runReady initReady ops).2.take k →
       (Notif.connectionOpened ∈ (runReady initReady ops).2.take k ∧
        Notif.documentLoaded ∈ (runReady initReady ops).2.take k ∧
        Notif.globalSettingsAvailable ∈ (runReady initReady ops).2.take k)) ∧
    ((rstep (runReady initReady ops).1 ReadyOp.rerun).2 = []) ∧
    ((runReady initReady ops).1.documentReady = true →
      (rstep (runReady initReady ops).1 ReadyOp.setDocumentReady).2 = []) ∧
    ((runReady initReady ops).1.connectionReady = true →
      (rstep (runReady initReady ops).1 ReadyOp.setConnectionReady).2 = []) ∧
    ((runReady initReady ops).1.globalSettingsReady = true →
      (rstep (runReady initReady ops).1 ReadyOp.setGlobalSettingsReady).2 = []) := by
  obtain ⟨hg, h1, h2, h3, h4, hord⟩ := runReady_inv ops initReady (by decide)
  have z1 : (initReady.connectionReadyInvoked).toNat = 0 := rfl
  have z2 : (initReady.documentReadyInvoked).toNat = 0 := rfl
  have z3 : (initReady.globalSettingsInvoked).toNat = 0 := rfl
  have z4 : (initReady.onReadyInvoked).toNat = 0 := rfl
  have b1 := bool_toNat_le_one ((runReady initReady ops).1.connectionReadyInvoked)
  have b2 := bool_toNat_le_one ((runReady initReady ops).1.documentReadyInvoked)
  have b3 := bool_toNat_le_one ((runReady initReady ops).1.globalSettingsInvoked)
  have b4 := bool_toNat_le_one ((runReady initReady ops).1.onReadyInvoked)
  have hcfin : (runReady initReady ops).1 =
      canon (runReady initReady ops).1.documentReady
        (runReady initReady ops).1.connectionReady
        (runReady initReady ops).1.globalSettingsReady := hg
  refine ⟨⟨by omega, by omega, by omega, by omega⟩, ?_, ?_, ?_, ?_, ?_⟩
  · intro k hk
    obtain ⟨o1, o2, o3⟩ := hord k hk
    exact ⟨o1.resolve_left (by decide), o2.resolve_left (by decide),
      o3.resolve_left (by decide)⟩
  · rw [hcfin]; exact (rstep_idem _ _ _).1
  · intro h; rw [hcfin]; exact (rstep_idem _ _ _).2.1 h
  · intro h; rw [hcfin]; exact (rstep_idem _ _ _).2.2.1 h
  · intro h; rw [hcfin]; exact (rstep_idem _ _ _).2.2.2 h

theorem c1_lifecycle_once_and_ordered_witness :
    (runReady initReady [ReadyOp.setConnectionReady, ReadyOp.setDocumentReady,
        ReadyOp.setGlobalSettingsReady]).2.count Notif.setupReady ≤ 1 ∧
    Notif.connectionOpened ∈ (runReady initReady [ReadyOp.setConnectionReady,
        ReadyOp.setDocumentReady, ReadyOp.setGlobalSettingsReady]).2.take 4 ∧
    (rstep (runReady initReady [ReadyOp.setConnectionReady, ReadyOp.setDocumentReady,
        ReadyOp.setGlobalSettingsReady]).1 ReadyOp.rerun).2 = [] ∧
    (rstep (runReady initReady [ReadyOp.setConnectionReady, ReadyOp.setDocumentReady,
        ReadyOp.setGlobalSettingsReady]).1 ReadyOp.setDocumentReady).2 = [] :=
  ⟨(c1_lifecycle_once_and_ordered _).1.2.2.2,
   ((c1_lifecycle_once_and_ordered _).2.1 4 (by decide)).1,
   (c1_lifecycle_once_and_ordered _).2.2.1,
   (c1_lifecycle_once_and_ordered _).2.2.2.1 (by decide)⟩

/-- An outgoing frame `{event, ...data}` as built by `send` (lines 240-244).
`JSON.stringify` is abstracted to the frame itself (it is injective here and
only identity and order of serialized frames are observable). -/
structure OutFrame where
  event : String
  data : List (String × JVal)
deriving DecidableEq

/-- WebSocket readyState as far as `send` semantics depend on it (WHATWG):
CONNECTING throws on send, OPEN transmits, CLOSED discards. -/
inductive WSReady where
  | connecting : WSReady
  | opened : WSReady
  | closed : WSReady
deriving DecidableEq

/-- A WebSocket handle: its ready state and the frames handed to it. -/
structure WSock where
  ready : WSReady
  sent : List OutFrame
deriving DecidableEq

/-- The JS exceptions this core can hit. -/
inductive JSErr where
  | parseError : JSErr
  | typeError : JSErr
  | invalidState : JSErr
deriving DecidableEq

/-- An inbound frame as produced by `JSON.parse` of the wire text.
`action` is the optional `action` member.  `payloadSettings` is the value
of `payload.settings`: `none` models a frame whose `payload` member is
absent (so that the member access in `_eventHandler` line 356 throws a
TypeError); protocol frames for the reserved settings event always carry
a payload object.  Other members are not observed by the core. -/
structure Frame where
  event : String
  action : Option String
  payloadSettings : Option JVal
deriving DecidableEq

/-- Result of attempting `JSON.parse` on one inbound message text:
`malformed` is a text on which the parse throws. -/
inductive Msg where
  | malformed : Msg
  | frame : Frame → Msg
deriving DecidableEq

/-- An argument value passed to `EventManager.callEvents` beyond the event
and action names. -/
inductive EMArg where
  | frameArg : Frame → EMArg
  | settingsMgr : EMArg
deriving DecidableEq

/-- One `EventManager.callEvents(event, action, ...params)` invocation as
issued by `StreamDeckHandlerBase`. -/
structure EMCall where
  event : String
  action : String
  args : List EMArg
deriving DecidableEq

/-- How `_handleReadyState` emits each notification (lines 323, 328, 333,
338): `callEvents` with the default action and, for
`globalSettingsAvailable`, the settings manager as payload. -/
def notifCall : Notif → EMCall
  | Notif.connectionOpened => ⟨"connectionOpened", "*", []⟩
  | Notif.documentLoaded => ⟨"documentLoaded", "*", []⟩
  | Notif.globalSettingsAvailable => ⟨"globalSettingsAvailable", "*", [EMArg.settingsMgr]⟩
  | Notif.setupReady => ⟨"setupReady", "*", []⟩

/-- The mutable state of a `StreamDeckHandlerBase` instance relevant to the
core: handshake parameters, readiness fields, socket handle, outgoing
cache, and the (external) settings cache.
`globalSettingsCache` is modelled from the spec: `SettingsManager.
cacheGlobalSettings` of the excluded settings-value cache is a plain set
of the delivered settings value. -/
structure StreamDeck where
  uuid : String
  registerEvent : String
  rs : ReadyState
  ws : Option WSock
  cachedEvents : List OutFrame
  globalSettingsCache : Option JVal
deriving DecidableEq

/-- Fresh handler state: no socket, empty cache, all readiness fields
false (fields set by `connectElgatoStreamDeckSocket` are parameters). -/
def initSD (u r : String) : StreamDeck :=
  ⟨u, r, initReady, none, [], none⟩

/-- `send(event, data)` (lines 240-256): build `{event, ...data}`; if
`this._ws` is set, hand the serialized frame to the socket (per WHATWG this
throws while CONNECTING, transmits when OPEN, and is discarded after
close); otherwise push it onto `_cachedEvents`.  The returned error is the
exception propagated to the caller, with the state unchanged in that
case. -/
def send (s : StreamDeck) (event : String) (data : List (String × JVal)) :
    StreamDeck × Option JSErr :=
  let frame : OutFrame := ⟨event, data⟩
  match s.ws with
  | some w =>
    match w.ready with
    | WSReady.connecting => (s, some JSErr.invalidState)
    | WSReady.opened =>
      ({s with ws := some {w with sent := w.sent ++ [frame]}}, none)
    | WSReady.closed => (s, none)
  | none => ({s with cachedEvents := s.cachedEvents ++ [frame]}, none)

/-- `_connectElgatoStreamDeckSocket` (lines 284-292): assign a fresh
WebSocket (CONNECTING) to `this._ws` and attach the handlers. -/
def connectSocket (s : StreamDeck) : StreamDeck :=
  {s with ws := some ⟨WSReady.connecting, []⟩}

/-- The cached-events flush inside `_open` (lines 302-308): each cached
serialized frame is handed directly to `this._ws.send`; the cache is NOT
cleared. -/
def flushCached (s : StreamDeck) : StreamDeck :=
  match s.ws with
  | some w => {s with ws := some {w with sent := w.sent ++ s.cachedEvents}}
  | none => s

/-- `requestGlobalSettings` (lines 209-213). -/
def requestGlobalSettings (s : StreamDeck) : StreamDeck × Option JSErr :=
  send s "getGlobalSettings" [("context", JVal.str s.uuid)]

/-- The `onopen` event: the socket (if any) becomes OPEN, then `_open`
(lines 299-313) runs: send the registration frame
`{event: registerEvent, uuid}`, flush the cached events in order, set
`_connectionReady`, run `_handleReadyState`, and request global settings.
All sends succeed because the socket is OPEN. -/
def openSocket (s : StreamDeck) : StreamDeck × List EMCall :=
  match s.ws with
  | none => (s, [])
  | some w =>
    let sA := {s with ws := some {w with ready := WSReady.opened}}
    let sB := (send sA sA.registerEvent [("uuid", JVal.str sA.uuid)]).1
    let sC := flushCached sB
    let rp := handleReadyState {sC.rs with connectionReady := true}
    let sD := {sC with rs := rp.1}
    let sE := (requestGlobalSettings sD).1
    (sE, rp.2.map notifCall)

/-- `_eventHandler` (lines 348-362): parse the message (a parse failure
throws before any state is touched); on the reserved settings event, hand
`payload.settings` to the settings cache (a missing payload object makes
that member access throw), set `_globalSettingsReady`, run
`_handleReadyState`; finally always forward the frame via
`callEvents(event, eventData.action ?? wildcard, eventData)`. -/
def eventHandler (s : StreamDeck) : Msg → Except JSErr (StreamDeck × List EMCall)
  | Msg.malformed => Except.error JSErr.parseError
  | Msg.frame f =>
    if f.event = "didReceiveGlobalSettings" then
      match f.payloadSettings with
      | none => Except.error JSErr.typeError
      | some v =>
        let s1 := {s with globalSettingsCache := some v}
        let rp := handleReadyState {s1.rs with globalSettingsReady := true}
        Except.ok ({s1 with rs := rp.1},
          rp.2.map notifCall ++ [⟨f.event, f.action.getD "*", [EMArg.frameArg f]⟩])
    else
      Except.ok (s, [⟨f.event, f.action.getD "*", [EMArg.frameArg f]⟩])

/-- The externally triggered operations on a handler instance: a caller
invoking `send` (directly or via the convenience wrappers), the host
invoking `connectElgatoStreamDeckSocket` (socket creation), the socket
callbacks `onopen`/`onclose`/`onmessage`, and the `_docReady` completion
callback. -/
inductive SDOp where
  | userSend : String → List (String × JVal) → SDOp
  | connect : SDOp
  | socketOpen : SDOp
  | socketClose : SDOp
  | message : Msg → SDOp
  | docReady : SDOp
deriving DecidableEq

/-- One operation.  A thrown exception (send while CONNECTING, parse or
payload-access failure in `onmessage`) propagates out of the callback,
leaving the state unchanged; the environment keeps delivering subsequent
events. -/
def sdStep (s : StreamDeck) : SDOp → StreamDeck × List EMCall
  | SDOp.userSend e d => ((send s e d).1, [])
  | SDOp.connect => (connectSocket s, [])
  | SDOp.socketOpen => openSocket s
  | SDOp.socketClose =>
    match s.ws with
    | none => (s, [])
    | some w =>
      ({s with ws := some {w with ready := WSReady.closed}},
        [⟨"connectionClosed", "*", []⟩])
  | SDOp.message m =>
    match eventHandler s m with
    | Except.ok p => p
    | Except.error _ => (s, [])
  | SDOp.docReady =>
    let rp := handleReadyState {s.rs with documentReady := true}
    ({s with rs := rp.1}, rp.2.map notifCall)

/-- Run a sequence of operations, concatenating all `callEvents`
invocations in order. -/
def runSD (s : StreamDeck) : List SDOp → StreamDeck × List EMCall
  | [] => (s, [])
  | op :: ops =>
    let p := sdStep s op
    let q := runSD p.1 ops
    (q.1, p.2 ++ q.2)

theorem runSD_cons (s : StreamDeck) (op : SDOp) (ops : List SDOp) :
    runSD s (op :: ops) =
      ((runSD (sdStep s op).1 ops).1,
        (sdStep s op).2 ++ (runSD (sdStep s op).1 ops).2) := rfl

/-- C7: a frame whose text fails to parse makes `_eventHandler` throw
before touching any state, and processing it ahead of any further messages
changes nothing: the remaining messages produce the same final state and
the same dispatches. -/
theorem c7_malformed_frame_resilience :
    (∀ s : StreamDeck, eventHandler s Msg.malformed = Except.error JSErr.parseError) ∧
    (∀ (s : StreamDeck) (ms : List Msg),
      runSD s (SDOp.message Msg.malformed :: ms.map SDOp.message) =
        runSD s (ms.map SDOp.message)) := by
  refine ⟨fun s => rfl, fun s ms => ?_⟩
  rw [runSD_cons]
  simp [sdStep, eventHandler]

theorem runSD_append : ∀ (l1 l2 : List SDOp) (s : StreamDeck),
    runSD s (l1 ++ l2) =
      ((runSD (runSD s l1).1 l2).1, (runSD s l1).2 ++ (runSD (runSD s l1).1 l2).2) := by
  intro l1
  induction l1 with
  | nil => intro l2 s; simp [runSD]
  | cons op ops ih =>
    intro l2 s
    rw [List.cons_append, runSD_cons, runSD_cons, ih]
    simp [List.append_assoc]

/-- While no socket exists, `send` only grows the cache, in call order. -/
theorem presend : ∀ (ms : List OutFrame) (s : StreamDeck), s.ws = none →
    (runSD s (ms.map fun m => SDOp.userSend m.event m.data)).1
      = {s with cachedEvents := s.cachedEvents ++ ms} := by
  intro ms
  induction ms with
  | nil => intro s h; simp [runSD]
  | cons m ms ih =>
    intro s h
    rw [List.map_cons, runSD_cons]
    have hstep : (sdStep s (SDOp.userSend m.event m.data)).1
        = {s with cachedEvents := s.cachedEvents ++ [m]} := by
      simp [sdStep, send, h]
    rw [hstep]
    rw [ih _ (by simp [h])]
    simp [List.append_assoc]

/-- While the socket is open, `send` appends to the socket, in call order. -/
theorem postsend : ∀ (ms : List OutFrame) (s : StreamDeck) (l : List OutFrame),
    s.ws = some ⟨WSReady.opened, l⟩ →
    (runSD s (ms.map fun m => SDOp.userSend m.event m.data)).1
      = {s with ws := some ⟨WSReady.opened, l ++ ms⟩} := by
  intro ms
  induction ms with
  | nil =>
    intro s l h
    simp only [List.map_nil, runSD, List.append_nil, ← h]
  | cons m ms ih =>
    intro s l h
    rw [List.map_cons, runSD_cons]
    have hstep : (sdStep s (SDOp.userSend m.event m.data)).1
        = {s with ws := some ⟨WSReady.opened, l ++ [m]⟩} := by
      simp [sdStep, send, h]
    rw [hstep]
    rw [ih _ (l ++ [m]) (by simp)]
    simp [List.append_assoc]

/-- C2: with any messages sent before the socket exists and any sent after
it opens, the socket receives first the registration frame
`{event: registerEvent, uuid}`, then the queued messages in original call
order, then the core's own `getGlobalSettings` request, then the post-open
messages in call order. -/
theorem c2_registration_first_fifo (u r : String) (pre post : List OutFrame) :
    ((runSD (initSD u r) ((pre.map fun m => SDOp.userSend m.event m.data) ++
        SDOp.connect :: SDOp.socketOpen ::
          (post.map fun m => SDOp.userSend m.event m.data))).1).ws =
      some ⟨WSReady.opened,
        OutFrame.mk r [("uuid", JVal.str u)] ::
          (pre ++ OutFrame.mk "getGlobalSettings" [("context", JVal.str u)] :: post)⟩ := by
  rw [runSD_append]
  have hpre : (runSD (initSD u r) (pre.map fun m => SDOp.userSend m.event m.data)).1
      = {initSD u r with cachedEvents := pre} := by
    rw [presend pre (initSD u r) rfl]
    simp [initSD]
  rw [hpre, runSD_cons, runSD_cons]
  have hmid : (sdStep (sdStep {initSD u r with cachedEvents := pre} SDOp.connect).1
      SDOp.socketOpen).1.ws =
      some ⟨WSReady.opened,
        (OutFrame.mk r [("uuid", JVal.str u)] :: pre) ++
          [OutFrame.mk "getGlobalSettings" [("context", JVal.str u)]]⟩ := rfl
  rw [postsend post _ _ hmid]
  simp [List.append_assoc]

/-- `_handleReadyState` never writes the three readiness flags (it only
sets latches). -/
theorem hrs_flags (rs : ReadyState) :
    ((handleReadyState rs).1.documentReady = rs.documentReady) ∧
    ((handleReadyState rs).1.connectionReady = rs.connectionReady) ∧
    ((handleReadyState rs).1.globalSettingsReady = rs.globalSettingsReady) := by
  rcases rs with ⟨a, b, c, d, e, f, g⟩
  revert a b c d e f g
  decide

theorem send_rs (s : StreamDeck) (e : String) (d : List (String × JVal)) :
    ((send s e d).1).rs = s.rs := by
  rcases hws : s.ws with _ | w
  · simp [send, hws]
  · rcases w with ⟨rd, snt⟩
    cases rd <;> simp [send, hws]

theorem openSocket_rs_none (s : StreamDeck) (hw : s.ws = none) :
    (openSocket s).1 = s := by
  simp [openSocket, hw]

theorem openSocket_rs_some (s : StreamDeck) (w : WSock) (hw : s.ws = some w) :
    ((openSocket s).1).rs = (handleReadyState {s.rs with connectionReady := true}).1 := by
  simp [openSocket, hw, send, flushCached, requestGlobalSettings]

/-- C6: no operation ever resets a readiness flag: each of the three
flags, once true, remains true across every operation; and transport close
emits exactly the `connectionClosed` notification while leaving the whole
readiness state (in particular `connectionReady`) untouched. -/
theorem c6_flags_monotone (s : StreamDeck) (op : SDOp) :
    (s.rs.documentReady = true → ((sdStep s op).1).rs.documentReady = true) ∧
    (s.rs.connectionReady = true → ((sdStep s op).1).rs.connectionReady = true) ∧
    (s.rs.globalSettingsReady = true → ((sdStep s op).1).rs.globalSettingsReady = true) ∧
    (∀ w, s.ws = some w →
      sdStep s SDOp.socketClose =
        ({s with ws := some {w with ready := WSReady.closed}},
          [⟨"connectionClosed", "*", []⟩])) := by
  have hclose : ∀ w, s.ws = some w →
      sdStep s SDOp.socketClose =
        ({s with ws := some {w with ready := WSReady.closed}},
          [⟨"connectionClosed", "*", []⟩]) := by
    intro w hw
    simp [sdStep, hw]
  refine ⟨?_, ?_, ?_, hclose⟩ <;>
  · intro h1
    cases op with
    | userSend e d =>
      have h := send_rs s e d
      simp only [sdStep]
      rw [h]
      exact h1
    | connect => exact h1
    | socketOpen =>
      rcases hws : s.ws with _ | w
      · have hre : (sdStep s SDOp.socketOpen).1 = s := by
          simp only [sdStep]
          exact openSocket_rs_none s hws
        rw [hre]
        exact h1
      · have hre := openSocket_rs_some s w hws
        simp only [sdStep]
        rw [hre]
        have hf := hrs_flags {s.rs with connectionReady := true}
        simp_all [hf.1, hf.2.1, hf.2.2]
    | socketClose =>
      rcases hws : s.ws with _ | w <;> simp_all [sdStep]
    | message m =>
      rcases m with _ | f
      · simpa [sdStep, eventHandler] using h1
      · by_cases hf : f.event = "didReceiveGlobalSettings"
        · rcases hp : f.payloadSettings with _ | v
          · simpa [sdStep, eventHandler, hf, hp] using h1
          · have hred : ((sdStep s (SDOp.message (Msg.frame f))).1).rs
                = (handleReadyState {s.rs with globalSettingsReady := true}).1 := by
              simp [sdStep, eventHandler, hf, hp]
            rw [hred]
            have hfl := hrs_flags {s.rs with globalSettingsReady := true}
            simp_all [hfl.1, hfl.2.1, hfl.2.2]
        · simpa [sdStep, eventHandler, hf] using h1
    | docReady =>
      have hred : ((sdStep s SDOp.docReady).1).rs
          = (handleReadyState {s.rs with documentReady := true}).1 := by
        simp [sdStep]
      rw [hred]
      have hfl := hrs_flags {s.rs with documentReady := true}
      simp_all [hfl.1, hfl.2.1, hfl.2.2]

theorem c6_flags_monotone_witness :
    ((sdStep (StreamDeck.mk "u" "r" (canon true true false)
        (some ⟨WSReady.opened, []⟩) [] none) SDOp.docReady).1).rs.connectionReady = true ∧
    sdStep (StreamDeck.mk "u" "r" (canon true true false)
        (some ⟨WSReady.opened, []⟩) [] none) SDOp.socketClose =
      (StreamDeck.mk "u" "r" (canon true true false)
        (some ⟨WSReady.closed, []⟩) [] none, [⟨"connectionClosed", "*", []⟩]) :=
  ⟨(c6_flags_monotone _ SDOp.docReady).2.1 rfl,
   (c6_flags_monotone _ SDOp.socketClose).2.2.2 ⟨WSReady.opened, []⟩ rfl⟩

/-- Number of `globalSettingsAvailable` dispatches in a call trace. -/
def gsaCount (calls : List EMCall) : Nat :=
  calls.countP (fun cl => cl.event == "globalSettingsAvailable")

/-- Inbound frames that do not themselves carry the internal notification
name `globalSettingsAvailable` (the host protocol never sends it; a frame
echoing that name would alias the internal notification in `callEvents`). -/
def msgEventOK : SDOp → Prop
  | SDOp.message (Msg.frame f) => f.event ≠ "globalSettingsAvailable"
  | _ => True

theorem notif_gsa_count (ns : List Notif) :
    gsaCount (ns.map notifCall) = ns.count Notif.globalSettingsAvailable := by
  induction ns with
  | nil => rfl
  | cons n ns ih =>
    have ih2 : (ns.map notifCall).countP (fun cl => cl.event == "globalSettingsAvailable")
        = ns.count Notif.globalSettingsAvailable := ih
    cases n <;>
      simp [gsaCount, notifCall, List.countP_cons, List.count_cons, ih2]

theorem rstep_good (rs : ReadyState) (hg : good rs) (op : ReadyOp) :
    good (rstep rs op).1 ∧
    ((rstep rs op).2.count Notif.globalSettingsAvailable + rs.globalSettingsInvoked.toNat
      = ((rstep rs op).1.globalSettingsInvoked).toNat) := by
  have hc : rs = canon rs.documentReady rs.connectionReady rs.globalSettingsReady := hg
  generalize hd : rs.documentReady = d at hc
  generalize hcc : rs.connectionReady = c at hc
  generalize hgg : rs.globalSettingsReady = g at hc
  subst hc
  exact ⟨by rw [rstep_canon]; exact good_canon _ _ _, (rstep_count d c g op).2.2.1⟩

theorem openSocket_some (s : StreamDeck) (w : WSock) (hw : s.ws = some w) :
    ((openSocket s).1).rs = (rstep s.rs ReadyOp.setConnectionReady).1 ∧
    (openSocket s).2 = ((rstep s.rs ReadyOp.setConnectionReady).2).map notifCall := by
  constructor <;> simp [openSocket, hw, send, flushCached, requestGlobalSettings, rstep]

theorem eventHandler_reserved (s : StreamDeck) (f : Frame) (v : JVal)
    (hf : f.event = "didReceiveGlobalSettings") (hp : f.payloadSettings = some v) :
    eventHandler s (Msg.frame f) = Except.ok
      ({s with
          globalSettingsCache := some v
          rs := (rstep s.rs ReadyOp.setGlobalSettingsReady).1},
        ((rstep s.rs ReadyOp.setGlobalSettingsReady).2).map notifCall ++
          [⟨f.event, f.action.getD "*", [EMArg.frameArg f]⟩]) := by
  simp [eventHandler, hf, hp, rstep]

theorem eventHandler_other (s : StreamDeck) (f : Frame)
    (hf : ¬ f.event = "didReceiveGlobalSettings") :
    eventHandler s (Msg.frame f) =
      Except.ok (s, [⟨f.event, f.action.getD "*", [EMArg.frameArg f]⟩]) := by
  simp [eventHandler, hf]

theorem gsaCount_append (a b : List EMCall) :
    gsaCount (a ++ b) = gsaCount a + gsaCount b := by
  simp [gsaCount, List.countP_append]

theorem sdStep_gsa (s : StreamDeck) (op : SDOp) (hg : good s.rs) (hok : msgEventOK op) :
    good ((sdStep s op).1).rs ∧
    (gsaCount (sdStep s op).2 + (s.rs.globalSettingsInvoked).toNat
      = (((sdStep s op).1).rs.globalSettingsInvoked).toNat) := by
  cases op with
  | userSend e d =>
    have h := send_rs s e d
    constructor
    · simpa only [sdStep, h] using hg
    · simp [sdStep, h, gsaCount]
  | connect =>
    constructor
    · simpa [sdStep, connectSocket] using hg
    · simp [sdStep, connectSocket, gsaCount]
  | socketOpen =>
    rcases hws : s.ws with _ | w
    · have h := openSocket_rs_none s hws
      have h2 : (openSocket s).2 = [] := by simp [openSocket, hws]
      constructor
      · simp only [sdStep]; rw [h]; exact hg
      · simp only [sdStep]; rw [h, h2]; simp [gsaCount]
    · obtain ⟨h1, h2⟩ := openSocket_some s w hws
      have hr := rstep_good s.rs hg ReadyOp.setConnectionReady
      constructor
      · simp only [sdStep]; rw [h1]; exact hr.1
      · simp only [sdStep]; rw [h1, h2, notif_gsa_count]; exact hr.2
  | socketClose =>
    rcases hws : s.ws with _ | w
    · constructor
      · simpa [sdStep, hws] using hg
      · simp [sdStep, hws, gsaCount]
    · have h0 : gsaCount [(⟨"connectionClosed", "*", []⟩ : EMCall)] = 0 := by decide
      constructor
      · simpa [sdStep, hws] using hg
      · simp [sdStep, hws, h0]
  | message m =>
    rcases m with _ | f
    · constructor
      · simpa [sdStep, eventHandler] using hg
      · simp [sdStep, eventHandler, gsaCount]
    · by_cases hf : f.event = "didReceiveGlobalSettings"
      · rcases hp : f.payloadSettings with _ | v
        · constructor
          · simpa [sdStep, eventHandler, hf, hp] using hg
          · simp [sdStep, eventHandler, hf, hp, gsaCount]
        · have he := eventHandler_reserved s f v hf hp
          have hr := rstep_good s.rs hg ReadyOp.setGlobalSettingsReady
          have hst : ((sdStep s (SDOp.message (Msg.frame f))).1).rs
              = (rstep s.rs ReadyOp.setGlobalSettingsReady).1 := by
            simp [sdStep, he]
          have hcalls : (sdStep s (SDOp.message (Msg.frame f))).2
              = ((rstep s.rs ReadyOp.setGlobalSettingsReady).2).map notifCall ++
                [⟨f.event, f.action.getD "*", [EMArg.frameArg f]⟩] := by
            simp [sdStep, he]
          have hfw : gsaCount [(⟨f.event, f.action.getD "*", [EMArg.frameArg f]⟩ : EMCall)] = 0 := by
            simp only [gsaCount, List.countP_cons, List.countP_nil, hf]
            rfl
          constructor
          · rw [hst]; exact hr.1
          · rw [hcalls, hst, gsaCount_append, notif_gsa_count, hfw]
            have := hr.2
            omega
      · have hne : f.event ≠ "globalSettingsAvailable" := hok
        have he := eventHandler_other s f hf
        have hst : (sdStep s (SDOp.message (Msg.frame f))).1 = s := by
          simp [sdStep, he]
        have hcalls : (sdStep s (SDOp.message (Msg.frame f))).2
            = [⟨f.event, f.action.getD "*", [EMArg.frameArg f]⟩] := by
          simp [sdStep, he]
        have hfw : gsaCount [(⟨f.event, f.action.getD "*", [EMArg.frameArg f]⟩ : EMCall)] = 0 := by
          simp [gsaCount, List.countP_cons, hne]
        constructor
        · rw [hst]; exact hg
        · rw [hcalls, hst, hfw]
          omega
  | docReady =>
    have hr := rstep_good s.rs hg ReadyOp.setDocumentReady
    have hst : ((sdStep s SDOp.docReady).1).rs = (rstep s.rs ReadyOp.setDocumentReady).1 := by
      simp [sdStep, rstep]
    have hcalls : (sdStep s SDOp.docReady).2
        = ((rstep s.rs ReadyOp.setDocumentReady).2).map notifCall := by
      simp [sdStep, rstep]
    constructor
    · rw [hst]; exact hr.1
    · rw [hcalls, hst, notif_gsa_count]; exact hr.2

theorem sd_gsa_inv : ∀ (ops : List SDOp) (s : StreamDeck), good s.rs →
    (∀ op ∈ ops, msgEventOK op) →
    good ((runSD s ops).1).rs ∧
    (gsaCount (runSD s ops).2 + (s.rs.globalSettingsInvoked).toNat
      = (((runSD s ops).1).rs.globalSettingsInvoked).toNat) := by
  intro ops
  induction ops with
  | nil => intro s hg _; exact ⟨hg, by simp [runSD, gsaCount]⟩
  | cons op ops ih =>
    intro s hg hok
    have hop := hok op (List.mem_cons_self op ops)
    have hops : ∀ o ∈ ops, msgEventOK o := fun o ho => hok o (List.mem_cons_of_mem _ ho)
    obtain ⟨hg1, hc1⟩ := sdStep_gsa s op hg hop
    obtain ⟨hg2, hc2⟩ := ih (sdStep s op).1 hg1 hops
    rw [runSD_cons]
    refine ⟨hg2, ?_⟩
    dsimp only
    rw [gsaCount_append]
    omega

theorem getLast_append_single {α : Type} (l : List α) (a : α) :
    (l ++ [a]).getLast? = some a := by
  induction l with
  | nil => rfl
  | cons x xs ih =>
    cases xs with
    | nil => rfl
    | cons y ys =>
      rw [List.cons_append, List.cons_append, List.getLast?_cons_cons]
      simpa using ih

/-- C5: a reserved `didReceiveGlobalSettings` frame makes `_eventHandler`
store the settings payload in the settings cache and set
`globalSettingsReady` before the frame is forwarded (the forward is the
last `callEvents` of the handler, with `frame.action ?? wildcard`); every
successfully handled frame, reserved or not, ends with exactly that
forward; and over any run whose inbound frames do not echo the internal
notification name, `globalSettingsAvailable` is dispatched at most once. -/
theorem c5_reserved_settings_dispatch :
    (∀ (s : StreamDeck) (f : Frame) (v : JVal),
       f.event = "didReceiveGlobalSettings" → f.payloadSettings = some v →
       ∃ s1 calls, eventHandler s (Msg.frame f) = Except.ok (s1, calls) ∧
         s1.globalSettingsCache = some v ∧
         s1.rs.globalSettingsReady = true ∧
         calls.getLast? = some ⟨f.event, f.action.getD "*", [EMArg.frameArg f]⟩) ∧
    (∀ (s s1 : StreamDeck) (f : Frame) (calls : List EMCall),
       eventHandler s (Msg.frame f) = Except.ok (s1, calls) →
       calls.getLast? = some ⟨f.event, f.action.getD "*", [EMArg.frameArg f]⟩) ∧
    (∀ (u r : String) (ops : List SDOp), (∀ op ∈ ops, msgEventOK op) →
       gsaCount (runSD (initSD u r) ops).2 ≤ 1) := by
  refine ⟨?_, ?_, ?_⟩
  · intro s f v hf hp
    refine ⟨_, _, eventHandler_reserved s f v hf hp, rfl, ?_, ?_⟩
    · have h := (hrs_flags {s.rs with globalSettingsReady := true}).2.2
      have hr : (rstep s.rs ReadyOp.setGlobalSettingsReady).1
          = (handleReadyState {s.rs with globalSettingsReady := true}).1 := rfl
      rw [hr, h]
    · exact getLast_append_single _ _
  · intro s s1 f calls hok
    by_cases hf : f.event = "didReceiveGlobalSettings"
    · rcases hp : f.payloadSettings with _ | v
      · have herr : eventHandler s (Msg.frame f) = Except.error JSErr.typeError := by
          simp [eventHandler, hf, hp]
        rw [herr] at hok
        simp at hok
      · rw [eventHandler_reserved s f v hf hp] at hok
        simp only [Except.ok.injEq, Prod.mk.injEq] at hok
        rw [← hok.2]
        exact getLast_append_single _ _
    · rw [eventHandler_other s f hf] at hok
      simp only [Except.ok.injEq, Prod.mk.injEq] at hok
      rw [← hok.2]
      rfl
  · intro u r ops hok
    obtain ⟨hgf, hcnt⟩ := sd_gsa_inv ops (initSD u r) (good_canon false false false) hok
    have hz : (((initSD u r).rs).globalSettingsInvoked).toNat = 0 := rfl
    have hb := bool_toNat_le_one ((((runSD (initSD u r) ops).1).rs).globalSettingsInvoked)
    omega

theorem c5_reserved_settings_dispatch_witness :
    (∃ s1 calls,
      eventHandler (initSD "u" "r")
          (Msg.frame ⟨"didReceiveGlobalSettings", none, some (JVal.str "x")⟩)
        = Except.ok (s1, calls) ∧
      s1.globalSettingsCache = some (JVal.str "x") ∧
      s1.rs.globalSettingsReady = true ∧
      calls.getLast? = some ⟨"didReceiveGlobalSettings", "*",
        [EMArg.frameArg ⟨"didReceiveGlobalSettings", none, some (JVal.str "x")⟩]⟩) ∧
    gsaCount (runSD (initSD "u" "r")
        [SDOp.message (Msg.frame ⟨"didReceiveGlobalSettings", none, some (JVal.str "x")⟩),
         SDOp.message (Msg.frame ⟨"didReceiveGlobalSettings", none, some (JVal.str "x")⟩)]).2 ≤ 1 := by
  constructor
  · exact c5_reserved_settings_dispatch.1 (initSD "u" "r") _ _ rfl rfl
  · refine c5_reserved_settings_dispatch.2.2 "u" "r" _ ?_
    intro op hop
    rcases List.mem_cons.mp hop with rfl | hop2
    · exact (by decide : ("didReceiveGlobalSettings" : String) ≠ "globalSettingsAvailable")
    · rcases List.mem_cons.mp hop2 with rfl | hop3
      · exact (by decide : ("didReceiveGlobalSettings" : String) ≠ "globalSettingsAvailable")
      · cases hop3

/-- C10: the settings-cache write in `_eventHandler` is not guarded by the
one-shot latch: on every receipt of a reserved settings frame, including
any later one, `cacheGlobalSettings` is invoked with the delivered payload,
so the cache always holds the most recent delivery. -/
theorem c10_cache_written_every_receipt :
    (∀ (s : StreamDeck) (f : Frame) (v : JVal),
       f.event = "didReceiveGlobalSettings" → f.payloadSettings = some v →
       ∃ calls, eventHandler s (Msg.frame f) =
         Except.ok ({s with
             globalSettingsCache := some v
             rs := (rstep s.rs ReadyOp.setGlobalSettingsReady).1}, calls)) ∧
    (∀ (s : StreamDeck) (f1 f2 : Frame) (v1 v2 : JVal),
       f1.event = "didReceiveGlobalSettings" → f1.payloadSettings = some v1 →
       f2.event = "didReceiveGlobalSettings" → f2.payloadSettings = some v2 →
       ((runSD s [SDOp.message (Msg.frame f1),
          SDOp.message (Msg.frame f2)]).1).globalSettingsCache = some v2) := by
  constructor
  · intro s f v hf hp
    exact ⟨_, eventHandler_reserved s f v hf hp⟩
  · intro s f1 f2 v1 v2 hf1 hp1 hf2 hp2
    have h1 := eventHandler_reserved s f1 v1 hf1 hp1
    have hs1 : (sdStep s (SDOp.message (Msg.frame f1))).1 =
        {s with
          globalSettingsCache := some v1
          rs := (rstep s.rs ReadyOp.setGlobalSettingsReady).1} := by
      simp [sdStep, h1]
    have h2 := eventHandler_reserved
      ({s with
          globalSettingsCache := some v1
          rs := (rstep s.rs ReadyOp.setGlobalSettingsReady).1}) f2 v2 hf2 hp2
    rw [runSD_cons]
    dsimp only
    rw [hs1, runSD_cons]
    dsimp only
    simp [sdStep, h2, runSD]

theorem c10_cache_written_every_receipt_witness :
    (∃ calls, eventHandler (initSD "u" "r")
        (Msg.frame ⟨"didReceiveGlobalSettings", none, some (JVal.str "a")⟩) =
      Except.ok ({initSD "u" "r" with
          globalSettingsCache := some (JVal.str "a")
          rs := (rstep (initSD "u" "r").rs ReadyOp.setGlobalSettingsReady).1}, calls)) ∧
    ((runSD (initSD "u" "r")
        [SDOp.message (Msg.frame ⟨"didReceiveGlobalSettings", none, some (JVal.str "a")⟩),
         SDOp.message (Msg.frame ⟨"didReceiveGlobalSettings", none,
           some (JVal.str "b")⟩)]).1).globalSettingsCache = some (JVal.str "b") :=
  ⟨c10_cache_written_every_receipt.1 (initSD "u" "r") _ _ rfl rfl,
   c10_cache_written_every_receipt.2 (initSD "u" "r") _ _ _ _ rfl rfl rfl rfl⟩

/-- The `EventManager.registeredEvents` map, as an insertion-ordered
association list from event name to the registered wrappers.  A wrapper is
identified by the action filter it captured at registration. -/
abbrev Registry : Type := List (String × List String)

/-- `Map.get(eventName)` (line 113): the wrappers registered for an event,
`[]` when none. -/
def regLookup (r : Registry) (e : String) : List String :=
  match r with
  | [] => []
  | (k, cbs) :: rest => if k = e then cbs else regLookup rest e

/-- `registerEvent` (lines 96-100): create the entry if absent (at the end,
per `Map` insertion order), then push the callback onto it. -/
def registerEvent (r : Registry) (e : String) (cb : String) : Registry :=
  match r with
  | [] => [(e, [cb])]
  | (k, cbs) :: rest =>
    if k = e then (k, cbs ++ [cb]) :: rest
    else (k, cbs) :: registerEvent rest e cb

/-- The string-keyed properties an array literal inherits through its
prototype chain (`Array.prototype` and `Object.prototype`, as specified by
ECMAScript): the JS `in` operator finds these in addition to the object's
own keys.  (Symbol-keyed properties cannot collide with a string operand
of `in` and are irrelevant here.) -/
def inheritedArrayKeys : List String :=
  ["constructor", "at", "concat", "copyWithin", "entries", "every", "fill",
   "filter", "find", "findIndex", "findLast", "findLastIndex", "flat",
   "flatMap", "forEach", "includes", "indexOf", "join", "keys",
   "lastIndexOf", "map", "pop", "push", "reduce", "reduceRight", "reverse",
   "shift", "slice", "some", "sort", "splice", "toLocaleString", "toString",
   "unshift", "values",
   "hasOwnProperty", "isPrototypeOf", "propertyIsEnumerable", "valueOf",
   "__defineGetter__", "__defineSetter__", "__lookupGetter__",
   "__lookupSetter__", "__proto__"]

/-- The JS test `eventName in ['didReceiveGlobalSettings',
'globalSettingsAvailable', 'setupReady']` (lines 50 and 110): `in` is true
for the property keys of the array object — its own keys, the index
strings "0", "1", "2" and "length", together with the string keys
inherited through the prototype chain (`inheritedArrayKeys`).  It is never
true for the three event names the literal actually lists. -/
def inGlobalEventsArray (eventName : String) : Bool :=
  eventName == "0" || eventName == "1" || eventName == "2" ||
    eventName == "length" || decide (eventName ∈ inheritedArrayKeys)

/-- One wrapper invocation performed by `callEvents`: the wrapper (named by
its captured filter) is called with the action name and the parameters. -/
structure Invocation where
  cb : String
  action : String
  args : List EMArg
deriving DecidableEq

/-- `callEvents` (lines 109-114): the guarded branch only writes a console
line; then every wrapper registered for the event is invoked, in
registration order, with `(actionName, ...params)`.  The second component
is the console output of the guarded branch. -/
def callEvents (r : Registry) (eventName : String) (actionName : String)
    (params : List EMArg) : List Invocation × List String :=
  ((regLookup r eventName).map (fun cb => ⟨cb, actionName, params⟩),
    if inGlobalEventsArray eventName then ["event manager: callEvents"] else [])

/-- `callEvents` with the guarded branch removed: the dispatch part only. -/
def callEventsNoGuard (r : Registry) (eventName : String) (actionName : String)
    (params : List EMArg) : List Invocation :=
  (regLookup r eventName).map (fun cb => ⟨cb, actionName, params⟩)

/-- A JS value passed as the decorator's `actionName` argument, as far as
`typeof` distinguishes what the guard checks. -/
inductive JSArg where
  | str : String → JSArg
  | num : Int → JSArg
  | boolVal : Bool → JSArg
  | undef : JSArg
  | obj : JSArg
deriving DecidableEq

def typeOfArg : JSArg → String
  | JSArg.str _ => "string"
  | JSArg.num _ => "number"
  | JSArg.boolVal _ => "boolean"
  | JSArg.undef => "undefined"
  | JSArg.obj => "object"

/-- The error thrown by the subscription-setup guard. -/
inductive IllegalArgumentError where
  | mk : String → IllegalArgumentError
deriving DecidableEq

/-- The `eventListener` closure produced by `DefaultDecoratorEventListener`
(lines 44-79): a non-string `actionName` throws `IllegalArgumentError`
before anything is registered; a string filter registers the wrapper. -/
def eventListener (event : String) (r : Registry) (actionName : JSArg) :
    Registry × Option IllegalArgumentError :=
  match actionName with
  | JSArg.str s => (registerEvent r event s, none)
  | x => (r, some (IllegalArgumentError.mk
      ("actionName needs to be of type string but " ++ typeOfArg x ++ " given.")))

/-- The constant `fixVariant` of the wrapper body (line 63). -/
def fixVariant : Nat := 1

/-- The wrapper body registered for a subscription (lines 48-78), returning
how many times `descriptor.value.apply` runs for one dispatch.
`actionName` is the captured filter, `eventActionName` the action the
dispatch carries; `!eventActionName` on a string means "is empty".  The
main condition returns after one apply; otherwise the live `fixVariant = 1`
branch applies the first commented fix. -/
def wrapperApplies (actionName eventActionName : String) : Nat :=
  if eventActionName = "" ∨ actionName = "*" ∨ actionName = eventActionName then 1
  else if fixVariant = 1 then
    if eventActionName = "" ∨ eventActionName = "*" ∨ actionName = eventActionName then 1
    else 0
  else
    if eventActionName = "" ∨ actionName = "*" ∨ eventActionName = "*" ∨
        actionName = eventActionName then 1
    else 0

/-- C3 counterexample: a subscription filtered to `"com.foo.action1"` and a
frame with event `E` carrying the action `""` — the frame carries an
action, the filter is not the wildcard, and the filter differs from the
action, so the claim says the callback is not invoked; the code's wrapper
applies the callback once, because the empty action is falsy. -/
theorem c3_counterexample :
    wrapperApplies "com.foo.action1" ((some "").getD "*") = 1 ∧
    ¬((some "" : Option String) = none ∨ ("com.foo.action1" : String) = "*" ∨
      (some "" : Option String) = some "com.foo.action1") := by
  constructor
  · rfl
  · decide

/-- C3 (amended): the wrapper applies the callback exactly once when the
frame carries no action, or carries the empty or wildcard action, or the
filter is the wildcard, or the filter equals the carried action; in every
other case it is not applied (and nothing is thrown). -/
theorem c3_filter_routing_amended (f : String) (a : Option String) :
    wrapperApplies f (a.getD "*") =
      if a = none ∨ a = some "" ∨ a = some "*" ∨ f = "*" ∨ a = some f then 1
      else 0 := by
  rcases a with _ | x <;>
    simp only [Option.getD] <;>
    unfold wrapperApplies <;>
    split_ifs <;>
    simp_all [fixVariant]

theorem regLookup_registerEvent_same (r : Registry) (e : String) (cb : String) :
    regLookup (registerEvent r e cb) e = regLookup r e ++ [cb] := by
  induction r with
  | nil => simp [registerEvent, regLookup]
  | cons p rest ih =>
    rcases p with ⟨k, cbs⟩
    by_cases hk : k = e <;> simp [registerEvent, regLookup, hk, ih]

/-- C8: the subscription-setup listener throws `IllegalArgumentError` for
every non-string action filter, leaving the registry unchanged with no
callback registered; for every string filter it throws nothing and appends
exactly one wrapper for the event. -/
theorem c8_invalid_filter_raises (ev : String) (r : Registry) (x : JSArg) :
    ((∀ s, x ≠ JSArg.str s) →
      (eventListener ev r x).1 = r ∧
      (eventListener ev r x).2 = some (IllegalArgumentError.mk
        ("actionName needs to be of type string but " ++ typeOfArg x ++ " given."))) ∧
    (∀ s, x = JSArg.str s →
      (eventListener ev r x).2 = none ∧
      regLookup (eventListener ev r x).1 ev = regLookup r ev ++ [s]) := by
  constructor
  · intro hx
    cases x with
    | str s => exact absurd rfl (hx s)
    | num n => exact ⟨rfl, rfl⟩
    | boolVal b => exact ⟨rfl, rfl⟩
    | undef => exact ⟨rfl, rfl⟩
    | obj => exact ⟨rfl, rfl⟩
  · rintro s rfl
    exact ⟨rfl, regLookup_registerEvent_same r ev s⟩

theorem c8_invalid_filter_raises_witness :
    (eventListener "keyDown" [] (JSArg.num 5)).1 = [] ∧
    (eventListener "keyDown" [] (JSArg.num 5)).2 =
      some (IllegalArgumentError.mk
        "actionName needs to be of type string but number given.") ∧
    (eventListener "keyDown" [] (JSArg.str "*")).2 = none :=
  ⟨((c8_invalid_filter_raises "keyDown" [] (JSArg.num 5)).1
      (fun _ h => JSArg.noConfusion h)).1,
   ((c8_invalid_filter_raises "keyDown" [] (JSArg.num 5)).1
      (fun _ h => JSArg.noConfusion h)).2,
   ((c8_invalid_filter_raises "keyDown" [] (JSArg.str "*")).2 "*" rfl).1⟩

/-- C9 counterexample: `"length"` and `"push"` are none of `"0"`, `"1"`,
`"2"`, yet the membership test is true for them (`"length"` is an own
property key of the array object, `"push"` an inherited one), so the
guarded branch does execute for the event name `"length"`. -/
theorem c9_counterexample :
    inGlobalEventsArray "length" = true ∧
    ("length" : String) ≠ "0" ∧ ("length" : String) ≠ "1" ∧
    ("length" : String) ≠ "2" ∧
    (callEvents [] "length" "*" []).2 = ["event manager: callEvents"] ∧
    inGlobalEventsArray "push" = true := by
  refine ⟨rfl, by decide, by decide, by decide, rfl, by decide⟩

/-- C9 (amended): the membership test is true exactly for the property
keys of the array object — the index strings "0", "1", "2", "length" and
the string keys inherited from `Array.prototype`/`Object.prototype` — so
it is false for every protocol event name, in particular the three the
array literal quotes; and since the guarded branch only logs, the
dispatching part of `callEvents` equals the routine with the branch
removed, for all inputs. -/
theorem c9_membership_test_amended :
    (∀ e : String, inGlobalEventsArray e = true ↔
      (e = "0" ∨ e = "1" ∨ e = "2" ∨ e = "length" ∨ e ∈ inheritedArrayKeys)) ∧
    (∀ e ∈ (["didReceiveGlobalSettings", "globalSettingsAvailable", "setupReady",
        "connectionOpened", "documentLoaded", "connectionClosed", "registerPi",
        "keyDown"] : List String), inGlobalEventsArray e = false) ∧
    (∀ (r : Registry) (e aName : String) (p : List EMArg),
      (callEvents r e aName p).1 = callEventsNoGuard r e aName p) := by
  refine ⟨?_, by decide, fun r e aName p => rfl⟩
  intro e
  simp [inGlobalEventsArray, or_assoc]

theorem c9_membership_test_amended_witness :
    inGlobalEventsArray "push" = true ∧
    inGlobalEventsArray "didReceiveGlobalSettings" = false ∧
    (callEvents [("keyDown", ["*"])] "keyDown" "com.foo.action1" []).1 =
      callEventsNoGuard [("keyDown", ["*"])] "keyDown" "com.foo.action1" [] :=
  ⟨(c9_membership_test_amended.1 "push").mpr
      (Or.inr (Or.inr (Or.inr (Or.inr (by decide))))),
   c9_membership_test_amended.2.1 "didReceiveGlobalSettings" (by decide),
   c9_membership_test_amended.2.2 [("keyDown", ["*"])] "keyDown"
      "com.foo.action1" []⟩

/-- C4 counterexample: after the socket closes (state reachable by
connect, open, close), the transport is not open, yet a `send` neither
raises nor appends anything to the outgoing queue — the frame is handed to
the dead socket and lost, because the code tests `this._ws` truthiness,
not openness; and while the socket is still CONNECTING, `send` raises an
invalid-state error instead of queueing. -/
theorem c4_counterexample :
    ((runSD (initSD "u" "r") [SDOp.connect, SDOp.socketOpen, SDOp.socketClose]).1).ws
      = some ⟨WSReady.closed,
        [⟨"r", [("uuid", JVal.str "u")]⟩,
         ⟨"getGlobalSettings", [("context", JVal.str "u")]⟩]⟩ ∧
    (send (runSD (initSD "u" "r")
        [SDOp.connect, SDOp.socketOpen, SDOp.socketClose]).1 "evt" []).1
      = (runSD (initSD "u" "r") [SDOp.connect, SDOp.socketOpen, SDOp.socketClose]).1 ∧
    ((runSD (initSD "u" "r")
        [SDOp.connect, SDOp.socketOpen, SDOp.socketClose]).1).cachedEvents = [] ∧
    (send (StreamDeck.mk "u" "r" initReady
        (some ⟨WSReady.connecting, []⟩) [] none) "evt" []).2
      = some JSErr.invalidState :=
  ⟨rfl, rfl, rfl, rfl⟩

/-- C4 (amended): `send` tests only whether a socket handle exists.  With
no handle, the frame is appended to the queue, which is unbounded, and no
error is raised.  With a handle the frame is never queued: it is
transmitted when the socket is OPEN, raises an invalid-state error while
CONNECTING, and is silently discarded after close. -/
theorem c4_send_queue_amended (s : StreamDeck) (e : String) (d : List (String × JVal)) :
    (s.ws = none →
      send s e d = ({s with cachedEvents := s.cachedEvents ++ [⟨e, d⟩]}, none)) ∧
    (∀ w, s.ws = some w → ((send s e d).1).cachedEvents = s.cachedEvents) ∧
    (∀ l, s.ws = some ⟨WSReady.opened, l⟩ →
      send s e d = ({s with ws := some ⟨WSReady.opened, l ++ [⟨e, d⟩]⟩}, none)) ∧
    (∀ l, s.ws = some ⟨WSReady.connecting, l⟩ →
      send s e d = (s, some JSErr.invalidState)) ∧
    (∀ l, s.ws = some ⟨WSReady.closed, l⟩ → send s e d = (s, none)) ∧
    (∀ ms : List OutFrame, s.ws = none →
      ((runSD s (ms.map fun m => SDOp.userSend m.event m.data)).1).cachedEvents
        = s.cachedEvents ++ ms) := by
  refine ⟨?_, ?_, ?_, ?_, ?_, ?_⟩
  · intro h; simp [send, h]
  · intro w hw
    rcases w with ⟨rd, snt⟩
    cases rd <;> simp [send, hw]
  · intro l hl; simp [send, hl]
  · intro l hl; simp [send, hl]
  · intro l hl; simp [send, hl]
  · intro ms h
    rw [presend ms s h]

theorem c4_send_queue_amended_witness :
    send (initSD "u" "r") "evt" [] =
      ({initSD "u" "r" with cachedEvents := [⟨"evt", []⟩]}, none) ∧
    ((send (StreamDeck.mk "u" "r" initReady
        (some ⟨WSReady.closed, []⟩) [] none) "evt" []).1).cachedEvents = [] ∧
    send (StreamDeck.mk "u" "r" initReady
        (some ⟨WSReady.opened, []⟩) [] none) "evt" [] =
      (StreamDeck.mk "u" "r" initReady
        (some ⟨WSReady.opened, [⟨"evt", []⟩]⟩) [] none, none) :=
  ⟨(c4_send_queue_amended (initSD "u" "r") "evt" []).1 rfl,
   (c4_send_queue_amended _ "evt" []).2.1 ⟨WSReady.closed, []⟩ rfl,
   (c4_send_queue_amended _ "evt" []).2.2.1 [] rfl⟩
